import Mathlib

/-!
Shallow embedding of the DataAnalyst-LLM query pipeline
(`src/query/query_pipeline.py`, `src/query/pipeline.py`,
`src/pipeline_steps/*.py`, `src/query/tools.py`) together with proofs
about the orchestrator and the individual pipeline steps.

Python dictionaries are modelled as association lists where a later
entry shadows an earlier one, so `d.update(o)` becomes list append.
Machine effects (LLM calls, database access, YAML parsing) are modelled
as oracle inputs recorded in environment structures: every code path of
the embedded functions mirrors a code path of the source, with the
oracle deciding which branch is taken, exactly as the external world
does for the Python code.
-/

set_option autoImplicit false

namespace DataAnalyst

/-! ## Python values and dictionaries -/

/-- A Python value as far as the pipeline code inspects one: `None`,
strings, booleans, integers and row lists (results of
`ast.literal_eval` on query-executor output). -/
inductive Value where
  | vnone
  | str (s : String)
  | bool (b : Bool)
  | int (n : Int)
  | rows (rs : List (List String))
  deriving Repr, DecidableEq

/-- Python truthiness for the modelled values. -/
def Value.truthy : Value → Bool
  | .vnone => false
  | .str s => !(s = "")
  | .bool b => b
  | .int n => !(n = 0)
  | .rows rs => !rs.isEmpty

/-- Python `a or b`: the first operand when truthy, else the second. -/
def pyOr (a b : Value) : Value :=
  if a.truthy then a else b

/-- A Python dict with string keys: an association list in which a later
entry shadows an earlier one, so that `d.update(o)` is `d ++ o`. -/
abbrev Dict := List (String × Value)

/-- `d.get(k, None)`: the value of the last entry for `k`, `None` when absent. -/
def dget (d : Dict) (k : String) : Value :=
  d.foldl (fun acc kv => if kv.1 = k then kv.2 else acc) Value.vnone

/-- Whether the dict has an entry for key `k`. -/
def containsKey (d : Dict) (k : String) : Bool :=
  d.any (fun kv => kv.1 = k)

theorem dget_foldl_init (e : Dict) (k : String) :
    ∀ (init : Value),
      e.foldl (fun acc kv => if kv.1 = k then kv.2 else acc) init
        = if containsKey e k then dget e k else init := by
  induction e with
  | nil => intro init; simp [containsKey]
  | cons kv e ih =>
    intro init
    have hcons : dget (kv :: e) k
        = e.foldl (fun acc kv => if kv.1 = k then kv.2 else acc)
            (if kv.1 = k then kv.2 else Value.vnone) := rfl
    simp only [List.foldl_cons]
    rw [ih, hcons, ih]
    by_cases hk : kv.1 = k <;> by_cases hc : containsKey e k <;>
      simp_all [containsKey]

theorem dget_append (d e : Dict) (k : String) :
    dget (d ++ e) k = if containsKey e k then dget e k else dget d k := by
  unfold dget
  rw [List.foldl_append, dget_foldl_init]
  rfl

theorem dget_append_of_contains (d e : Dict) (k : String)
    (h : containsKey e k = true) : dget (d ++ e) k = dget e k := by
  rw [dget_append, h]; rfl

theorem dget_append_of_not_contains (d e : Dict) (k : String)
    (h : containsKey e k = false) : dget (d ++ e) k = dget d k := by
  rw [dget_append, h]; rfl

theorem containsKey_of_dget_ne_vnone (e : Dict) (k : String)
    (h : dget e k ≠ Value.vnone) : containsKey e k = true := by
  by_contra hc
  apply h
  have hc' : containsKey e k = false := by
    cases hcc : containsKey e k
    · rfl
    · exact absurd hcc hc
  have := dget_foldl_init e k Value.vnone
  rw [hc'] at this
  simpa [dget] using this

/-! ## Pipeline data model (`src/query/pipeline.py`, `src/query/model.py`,
`src/pipeline_steps/custom_exception.py`) -/

/-- `PipelineStepType` enum from `src/query/model.py`. -/
inductive PipelineStepType where
  | question_classification
  | requirements_extraction
  | natural_language_to_sql
  | data_interpretation
  | visualization
  | execute_sql_query
  | explain_sql_query
  | data_summarization
  deriving Repr, DecidableEq

/-- An exception value as the orchestrator distinguishes them:
`RetryablePipelineStepException` (message plus `retry_count`) versus any
other `Exception` (fatal as far as the retry logic is concerned). -/
inductive StepError where
  | retryable (message : String) (retry_count : Nat)
  | fatal (message : String)
  deriving Repr, DecidableEq

/-- `RetryablePipelineStepException(message)` with the default
`retry_count = 3` from `src/pipeline_steps/custom_exception.py`. -/
def RetryablePipelineStepException (message : String) : StepError :=
  StepError.retryable message 3

/-- `isinstance(e, RetryablePipelineStepException)` on an optional error. -/
def retryableOpt : Option StepError → Bool
  | some (.retryable _ _) => true
  | _ => false

/-- Statistics payload. The source builds a dict of model name, token
counts and timing; no claim inspects those fields, so the embedding
keeps only the `step_type` tag that identifies the producing attempt. -/
structure PipelineStatistics where
  step_type : PipelineStepType
  deriving Repr, DecidableEq

/-- `PipelineStepOutput` from `src/query/pipeline.py` with the source's
defaults (`raw_data=""`, `terminal=True`, `error=None`,
`statistics=None`). -/
structure PipelineStepOutput where
  step_type : PipelineStepType
  data : Dict
  input : Dict
  raw_data : String := ""
  terminal : Bool := true
  error : Option StepError := none
  statistics : Option PipelineStatistics := none
  deriving Repr, DecidableEq

/-- `PipelineResult` from `src/query/pipeline.py`. -/
structure PipelineResult where
  reply : Value
  steps : List PipelineStepOutput
  is_complete : Bool := true
  error : Option StepError := none
  statistics : List PipelineStatistics
  deriving Repr, DecidableEq

/-- Outcome of one `step.run(...)` call: a returned `PipelineStepOutput`
or an exception escaping the step into the orchestrator's `try`. -/
inductive StepCall where
  | ok (out : PipelineStepOutput)
  | raise (e : StepError)
  deriving Repr, DecidableEq

/-- A pipeline step as the orchestrator sees one. The Python signature
`run(query, expert_id, thread_id, tools, context, data)` passes
`query`/`expert_id`/`thread_id`/`tools`/`context` unchanged on every
invocation, so they are folded into the closure; `data` is the shared
state, and the `Nat` argument indexes repeated invocations of the same
step (hidden LLM state makes reruns nondeterministic). -/
structure PipelineStep where
  get_type : PipelineStepType
  run : Dict → Nat → StepCall

/-! ## The orchestrator `QueryPipeline.run`
(`src/query/query_pipeline.py`, lines 56-140) -/

/-- The retry loop of `QueryPipeline.run` (lines 80-94): `n` is the
invocation index of the next re-invocation, the fuel argument is
`max_retries - iterator`. Returns the final `result` together with the
outputs of every invocation the loop made (for the statistics list); a
raised exception aborts with the outputs made before it. -/
def retryLoop (step : PipelineStep) (data : Dict)
    (result : PipelineStepOutput) :
    Nat → Nat →
    Except (StepError × List PipelineStepOutput)
      (PipelineStepOutput × List PipelineStepOutput)
  | _, 0 => .ok (result, [])
  | n, fuel + 1 =>
    match step.run data n with
    | .raise e => .error (e, [])
    | .ok r =>
      if retryableOpt r.error then
        match retryLoop step data r (n + 1) fuel with
        | .error (e, l) => .error (e, r :: l)
        | .ok (rf, l) => .ok (rf, r :: l)
      else .ok (r, [r])

/-- One iteration of the orchestrator's `for` loop up to line 94: the
initial `step.run` plus, when its error is a
`RetryablePipelineStepException`, the retry loop bounded by that first
error's `retry_count`. Returns the final `result` and the outputs of
all invocations made. -/
def runStepWithRetries (step : PipelineStep) (data : Dict) :
    Except (StepError × List PipelineStepOutput)
      (PipelineStepOutput × List PipelineStepOutput) :=
  match step.run data 0 with
  | .raise e => .error (e, [])
  | .ok r0 =>
    match r0.error with
    | some (.retryable _ rc) =>
      (match retryLoop step data r0 1 rc with
       | .error (e, l) => .error (e, r0 :: l)
       | .ok (rf, l) => .ok (rf, r0 :: l))
    | _ => .ok (r0, [r0])

/-- `if result.statistics: statistics.append(...)`, applied to every
invocation's output in order. -/
def statsOf (attempts : List PipelineStepOutput) : List PipelineStatistics :=
  attempts.filterMap (fun o => o.statistics)

/-- Condition of the reply update at line 98:
`result.data and result.data.get("reply", None)`. -/
def hasReply (d : Dict) : Bool :=
  !d.isEmpty && (dget d "reply").truthy

/-- The reply selected at lines 99-101:
`result.data.get("data_summary", None) or result.data.get("reply")`. -/
def selReply (d : Dict) : Value :=
  pyOr (dget d "data_summary") (dget d "reply")

/-- The `for step in self.pipeline_steps` loop of `QueryPipeline.run`
(lines 71-140) with the mutable locals `data`, `reply`, `results` and
`statistics` as explicit accumulators. A raised exception is handled as
in the `except` block (lines 124-140): a synthetic `PipelineStepOutput`
is appended (its `reply=`/`is_complete=` keyword arguments are swallowed
by `**kwargs` in the source constructor, leaving the defaults
`terminal=True`, `raw_data=""`, `statistics=None`). -/
def runSteps (stepsList : List PipelineStep) (data : Dict) (reply : Value)
    (results : List PipelineStepOutput) (stats : List PipelineStatistics) :
    PipelineResult :=
  match stepsList with
  | [] =>
    { reply := reply, steps := results, is_complete := true,
      error := none, statistics := stats }
  | step :: rest =>
    match runStepWithRetries step data with
    | .error (e, attempts) =>
      { reply := reply,
        steps := results ++
          [{ step_type := step.get_type, data := data, input := data,
             raw_data := "", terminal := true, error := some e,
             statistics := none }],
        is_complete := true, error := some e,
        statistics := stats ++ statsOf attempts }
    | .ok (result, attempts) =>
      let stats2 := stats ++ statsOf attempts
      let results2 := results ++ [result]
      let reply2 := if hasReply result.data then selReply result.data else reply
      if result.error.isSome then
        { reply := reply2, steps := results2, is_complete := true,
          error := result.error, statistics := stats2 }
      else if result.terminal then
        { reply := reply2, steps := results2, is_complete := true,
          error := none, statistics := stats2 }
      else
        runSteps rest (data ++ result.data) reply2 results2 stats2

/-- `QueryPipeline.run` (lines 56-140): initial `reply = ""`, empty
`results` and `statistics`. -/
def QueryPipeline.run (pipeline_steps : List PipelineStep) (data : Dict) :
    PipelineResult :=
  runSteps pipeline_steps data (Value.str "") [] []

/-- Number of step invocations a loop iteration performed: every
completed invocation plus, on an escaped exception, the raising one. -/
def attemptsMade
    (r : Except (StepError × List PipelineStepOutput)
      (PipelineStepOutput × List PipelineStepOutput)) : Nat :=
  match r with
  | .ok (_, l) => l.length
  | .error (_, l) => l.length + 1

/-! ## Tools (`src/query/tools.py`) -/

/-- The database object a schema tool returns when run with
`{"no_llm": True}`; only its `connection_id` is inspected. -/
structure DBConn where
  connection_id : String
  deriving Repr, DecidableEq

/-- A `StructuredTool` as the pipeline steps inspect one: its `name` and
the result of running it in no-execution mode (`None`, i.e. falsy, is
modelled as `none`). -/
structure SchemaTool where
  name : String
  run_no_llm : Option DBConn
  deriving Repr, DecidableEq

/-- Whether the first list is a leading segment of the second. -/
def charsStartWith : List Char → List Char → Bool
  | [], _ => true
  | _ :: _, [] => false
  | c :: cs, d :: ds => c = d && charsStartWith cs ds

/-- Whether the first list occurs as a contiguous segment of the
second. -/
def charsContain : List Char → List Char → Bool
  | pat, [] => pat.isEmpty
  | pat, d :: ds => charsStartWith pat (d :: ds) || charsContain pat ds

/-- Python `sub in s` substring test. -/
def pyIn (sub s : String) : Bool :=
  charsContain sub.data s.data

/-- The characters of `s` before the first occurrence of `sep` (all of
`s` when `sep` does not occur). -/
def charsBefore : List Char → List Char → List Char
  | _, [] => []
  | sep, d :: ds =>
    if charsStartWith sep (d :: ds) then [] else d :: charsBefore sep ds

/-- Python `s.split(sep)[0]` for a non-empty separator: the part of `s`
before the first occurrence of `sep`, or all of `s` when absent. -/
def splitFirst (sep s : String) : String :=
  ⟨charsBefore sep.data s.data⟩

/-- `get_connection_id_from_tools` (`src/query/tools.py`, lines 340-348):
`None`/empty tool name or missing tool or falsy db yields `None`, else
the db's `connection_id`. -/
def get_connection_id_from_tools (schema_tool_name : Option String)
    (tools : List SchemaTool) : Option String :=
  match schema_tool_name with
  | none => none
  | some s =>
    if s = "" then none
    else
      match tools.find? (fun t => t.name = s) with
      | none => none
      | some t =>
        match t.run_no_llm with
        | none => none
        | some db => some db.connection_id

/-! ## Requirement Gatherer
(`src/pipeline_steps/data_related_requirement_gathering.py`) -/

/-- The parsed YAML output model of the Requirement Gatherer
(its inner `Output` pydantic class). -/
structure GatherOutput where
  reply : String
  schema_tool_name : Option String
  requirement : Option String
  is_requirement_clear : Bool
  is_already_answered_without_further_queries : Bool
  deriving Repr, DecidableEq

/-- An optional string as a dict value (`None` ↦ `vnone`). -/
def optStr : Option String → Value
  | none => Value.vnone
  | some s => Value.str s

/-- `output.dict()` for `GatherOutput`. -/
def GatherOutput.toDict (o : GatherOutput) : Dict :=
  [("reply", Value.str o.reply),
   ("schema_tool_name", optStr o.schema_tool_name),
   ("requirement", optStr o.requirement),
   ("is_requirement_clear", Value.bool o.is_requirement_clear),
   ("is_already_answered_without_further_queries",
     Value.bool o.is_already_answered_without_further_queries)]

/-- Oracle for one invocation of the Requirement Gatherer:
`agent_failure` models an exception raised while building the LLM
client, reading the context or invoking the agent (caught by the step's
outer `except`); `raw_data` is the agent's output text; `parsed` is the
result of `YamlOutputParser` on it (`none` models a parse exception). -/
structure GathererEnv where
  agent_failure : Option StepError
  raw_data : String
  parsed : Option GatherOutput

/-- `DataRelatedRequirementGatheringPipelineStep.run` (lines 233-364).
The step never reads the shared `data` dict; `tools` are filtered to
schema-getter tools before the agent runs and before connection-id
resolution (line 272). Statistics are built whenever the agent call
succeeded and attached to every output except the parse-failure one. -/
def gathererRun (env : GathererEnv) (query : String)
    (tools : List SchemaTool) : PipelineStepOutput :=
  match env.agent_failure with
  | some e =>
    { step_type := .requirements_extraction, data := [],
      input := [("query", Value.str query)], error := some e,
      terminal := true }
  | none =>
    let tools := tools.filter (fun t => pyIn "SchemaGetter" t.name)
    let stats : Option PipelineStatistics :=
      some { step_type := .requirements_extraction }
    match env.parsed with
    | none =>
      { step_type := .requirements_extraction, raw_data := env.raw_data,
        data := [], input := [("query", Value.str query)],
        error := some (RetryablePipelineStepException "Error in parsing output"),
        terminal := true }
    | some output =>
      let input : Dict := [("query", Value.str query)]
      if output.is_requirement_clear
          && !output.is_already_answered_without_further_queries then
        match get_connection_id_from_tools output.schema_tool_name tools with
        | some c =>
          if c = "" then
            { step_type := .requirements_extraction, data := output.toDict,
              input := input, raw_data := env.raw_data,
              error := some (RetryablePipelineStepException
                "AI could not decide on the database, so no connection id found"),
              terminal := true, statistics := stats }
          else
            { step_type := .requirements_extraction,
              data := output.toDict ++ [("connection_id", Value.str c)],
              input := input, raw_data := env.raw_data,
              terminal := false, statistics := stats }
        | none =>
          { step_type := .requirements_extraction, data := output.toDict,
            input := input, raw_data := env.raw_data,
            error := some (RetryablePipelineStepException
              "AI could not decide on the database, so no connection id found"),
            terminal := true, statistics := stats }
      else
        { step_type := .requirements_extraction, data := output.toDict,
          input := input, raw_data := env.raw_data,
          terminal := true, statistics := stats }

/-- The Requirement Gatherer as an orchestrator step, with a fresh
oracle per invocation. -/
def gathererStep (envs : Nat → GathererEnv) (query : String)
    (tools : List SchemaTool) : PipelineStep :=
  { get_type := .requirements_extraction,
    run := fun _ n => .ok (gathererRun (envs n) query tools) }

/-! ## Summarizer (`src/pipeline_steps/data_summarization.py`) -/

/-- The parsed YAML output model of the Summarizer (its inner `Output`
pydantic class). -/
structure SummOutput where
  reply : String
  data_summary : String
  deriving Repr, DecidableEq

/-- `tuple_to_csv` (`src/pipeline_steps/util.py`): joins the first 10
rows, comma-separating the stringified values of each row. -/
def tuple_to_csv (data : List (List String)) : String :=
  (data.take 10).foldl
    (fun acc row => acc ++ String.intercalate "," row ++ "\n") ""

/-- Oracle for one invocation of the Summarizer. `client_failure`
models `get_anthropic_client` raising (before any input check);
`schema_run_failure` models `schema_tool.run({})` raising;
`exec_query` is the combined result of
`execute_custom_query(connection_id, sql, 1, 10, ...)` plus
`sql_data_to_csv` when sample rows were not already attached (`.error`
models a raised exception, caught by the inner `try`); `llm_failure`
models `llm.invoke` raising; `parsed` is the `YamlOutputParser` result
on `raw_data` (`none` models a parse exception). -/
structure SummarizerEnv where
  client_failure : Option StepError
  schema_run_failure : Option StepError
  exec_query : Except StepError String
  llm_failure : Option StepError
  raw_data : String
  parsed : Option SummOutput

/-- `DataSummarizationPipelineStep.run` (lines 83-243), branch for
branch: missing `schema_tool_name` / `requirement` / `connection_id` /
`sql` and a missing schema tool are fatal; a failure fetching sample
data is fatal; a YAML parse failure is retryable; the success path
returns the parsed reply and data summary with `terminal=False`. -/
def summarizerRun (env : SummarizerEnv) (query : String)
    (tools : List SchemaTool) (data : Dict) : PipelineStepOutput :=
  match env.client_failure with
  | some e =>
    { step_type := .data_summarization, data := [],
      input := [("query", Value.str query)], error := some e,
      terminal := true }
  | none =>
    let database_schema := dget data "schema_tool_name"
    if !database_schema.truthy then
      { step_type := .data_summarization, data := [],
        input := [("query", Value.str query)],
        error := some (StepError.fatal "No schema found"), terminal := true }
    else
      let requirement := dget data "requirement"
      if !requirement.truthy then
        { step_type := .data_summarization, data := [],
          input := [("query", Value.str query)],
          error := some (StepError.fatal "No requirement found"),
          terminal := true }
      else
        let connection_id := dget data "connection_id"
        if !connection_id.truthy then
          { step_type := .data_summarization, data := [], input := [],
            error := some (StepError.fatal "No connection_id found"),
            terminal := true }
        else
          let sql_query := dget data "sql"
          if !sql_query.truthy then
            { step_type := .data_summarization, data := [],
              input := [("query", Value.str query)],
              error := some (StepError.fatal "No sql found"),
              terminal := true }
          else
            match (match database_schema with
                   | .str s => tools.find? (fun t => t.name = s)
                   | _ => none : Option SchemaTool) with
            | none =>
              { step_type := .data_summarization, data := [],
                input := [("query", Value.str query)],
                error := some (StepError.fatal "No schema tool found"),
                terminal := true }
            | some _ =>
              match env.schema_run_failure with
              | some e =>
                { step_type := .data_summarization, data := [],
                  input := [("query", Value.str query)], error := some e,
                  terminal := true }
              | none =>
                let sql_data := dget data "sql_data"
                let formatted : Except StepError String :=
                  if !sql_data.truthy then env.exec_query
                  else
                    match sql_data with
                    | .rows rs => .ok (tuple_to_csv rs)
                    | _ => .error (StepError.fatal
                        "TypeError: sql_data is not iterable")
                match formatted with
                | .error e =>
                  { step_type := .data_summarization, data := [],
                    input := [("query", Value.str query),
                              ("sql_query", sql_query)],
                    error := some e, terminal := true }
                | .ok _ =>
                  match env.llm_failure with
                  | some e =>
                    { step_type := .data_summarization, data := [],
                      input := [("query", Value.str query)],
                      error := some e, terminal := true }
                  | none =>
                    match env.parsed with
                    | none =>
                      { step_type := .data_summarization,
                        raw_data := env.raw_data, data := [],
                        input := [("query", Value.str query)],
                        error := some (RetryablePipelineStepException
                          "Error in parsing output"),
                        terminal := true }
                    | some output =>
                      { step_type := .data_summarization,
                        data := [("reply", Value.str output.reply),
                                 ("data_summary",
                                   Value.str output.data_summary)],
                        input := [("query", Value.str query),
                                  ("sql", sql_query),
                                  ("requirement", requirement)],
                        raw_data := env.raw_data, terminal := false,
                        statistics :=
                          some { step_type := .data_summarization } }

/-! ## SQL Generator
(`src/pipeline_steps/natural_language_to_sql_generation.py`) -/

/-- The parsed YAML output model of the SQL Generator (its inner
`Output` pydantic class): `reply: str`, `sql: Optional[str]`. -/
structure GenOutput where
  reply : String
  sql : Option String
  deriving Repr, DecidableEq

/-- `output.dict()` for `GenOutput`. -/
def GenOutput.toDict (o : GenOutput) : Dict :=
  [("reply", Value.str o.reply), ("sql", optStr o.sql)]

/-- `detect_sql_error` (lines 418-421): the executor result reports an
error exactly when it contains the SQLAlchemy error-link marker. -/
def detect_sql_error (err_str : String) : Bool :=
  pyIn "Background on this error at: https://sqlalche.me" err_str

/-- Oracle for one internal generation attempt: `raw_data` is the LLM
response text (the influence of `previous_sql`/`previous_error` on the
prompt is absorbed into the per-attempt oracle); `parsed` is the
`YamlOutputParser` result (`.error` carries `str(e)` of the parse
exception); `exec_result` is the string `sql_executor.run(output.sql)`
returns; `literal_eval` is `ast.literal_eval` on it (`none` models a
raised exception). -/
structure GenAttemptEnv where
  raw_data : String
  parsed : Except String GenOutput
  exec_result : String
  literal_eval : Option (List (List String))

/-- Result of one `generate_sql` call: a returned `PipelineStepOutput`,
a raised `SQLExecutionError` (sql, message), or another exception
propagating to the step's outer `except` (a missing executor tool makes
`sql_executor.run` an attribute access on `None`). -/
inductive GenStepResult where
  | out (o : PipelineStepOutput)
  | sqlError (sql : String) (message : String)
  | raised (e : StepError)
  deriving Repr, DecidableEq

/-- Whether a parsed `sql` field is falsy (`if not output.sql`). -/
def sqlFalsy : Option String → Bool
  | none => true
  | some s => s = ""

/-- `generate_sql` (lines 335-416): parse failure is a retryable error;
a falsy `sql` is a retryable error; SQL whose execution the executor
reports as erroring raises `SQLExecutionError`; otherwise up to the
first 10 rows of `ast.literal_eval` of the executor result are embedded
under `sql_data` (or `None` when evaluation fails) and the output is
returned with `terminal=False` and statistics attached. -/
def generate_sql (env : GenAttemptEnv) (visualisation_requirement : String)
    (executorExists : Bool) : GenStepResult :=
  let input : Dict := [("requirement", Value.str visualisation_requirement)]
  match env.parsed with
  | .error e =>
    .out { step_type := .natural_language_to_sql, raw_data := env.raw_data,
           data := [], input := input,
           error := some (RetryablePipelineStepException
             ("Error in parsing output: " ++ e)),
           terminal := true }
  | .ok output =>
    if sqlFalsy output.sql then
      .out { step_type := .natural_language_to_sql,
             raw_data := env.raw_data, data := output.toDict,
             input := input,
             error := some (RetryablePipelineStepException
               "Failed to generate sql query"),
             terminal := true }
    else if !executorExists then
      .raised (StepError.fatal
        "AttributeError: NoneType object has no attribute run")
    else if detect_sql_error env.exec_result then
      .sqlError (match output.sql with | some s => s | none => "")
        env.exec_result
    else
      let sql_data : Value :=
        match env.literal_eval with
        | some rows => Value.rows (rows.take 10)
        | none => Value.vnone
      .out { step_type := .natural_language_to_sql,
             data := output.toDict ++ [("sql_data", sql_data)],
             input := input, raw_data := env.raw_data, terminal := false,
             statistics := some { step_type := .natural_language_to_sql } }

/-- Oracle for one invocation of the SQL Generator: `client_failure`
models `get_anthropic_client` raising, `schema_run_failure` models
`schema_tool.run({})` raising, and `attempts` gives the oracle of each
internal generation attempt. -/
structure GenEnv where
  client_failure : Option StepError
  schema_run_failure : Option StepError
  attempts : Nat → GenAttemptEnv

/-- The `while iterations < 3` loop of
`NaturalLanguageToSQLGenerationPipelineStep.run` (lines 289-324), with
fuel `3 - iterations`: each `SQLExecutionError` feeds the next attempt;
after three such errors the step returns a fatal output carrying the
last execution error text (with statistics attached); any other raised
exception falls to the outer `except` (fatal output). -/
def genLoop (env : GenEnv) (requirement : String) (executorExists : Bool)
    (query : String) :
    Nat → Nat → String → String → PipelineStepOutput
  | 0, _, _, previous_error =>
    { step_type := .natural_language_to_sql, data := [],
      input := [("requirement", Value.str requirement)],
      error := some (StepError.fatal previous_error), terminal := true,
      statistics := some { step_type := .natural_language_to_sql } }
  | fuel + 1, iterations, _, _ =>
    match generate_sql (env.attempts iterations) requirement executorExists with
    | .out o => o
    | .raised e =>
      { step_type := .natural_language_to_sql, data := [],
        input := [("query", Value.str query)], error := some e,
        terminal := true }
    | .sqlError sql message =>
      genLoop env requirement executorExists query fuel (iterations + 1)
        sql message

/-- `NaturalLanguageToSQLGenerationPipelineStep.run` (lines 204-333):
missing `schema_tool_name` / `requirement` in the shared state and a
missing schema tool are fatal; otherwise the SQL executor tool is
looked up as `<schema name>QueryExecutor` and the bounded generation
loop runs. -/
def nlRun (env : GenEnv) (query : String) (tools : List SchemaTool)
    (data : Dict) : PipelineStepOutput :=
  match env.client_failure with
  | some e =>
    { step_type := .natural_language_to_sql, data := [],
      input := [("query", Value.str query)], error := some e,
      terminal := true }
  | none =>
    let database_schema := dget data "schema_tool_name"
    if !database_schema.truthy then
      { step_type := .natural_language_to_sql, data := [],
        input := [("query", Value.str query)],
        error := some (StepError.fatal "No schema found"), terminal := true }
    else
      let requirement := dget data "requirement"
      if !requirement.truthy then
        { step_type := .natural_language_to_sql, data := [],
          input := [("query", Value.str query)],
          error := some (StepError.fatal "No requirement found"),
          terminal := true }
      else
        match (match database_schema with
               | .str s => tools.find? (fun t => t.name = s)
               | _ => none : Option SchemaTool) with
        | none =>
          { step_type := .natural_language_to_sql, data := [],
            input := [("query", Value.str query)],
            error := some (StepError.fatal "No schema tool found"),
            terminal := true }
        | some schema_tool =>
          let schema_name := splitFirst "SchemaGetter" schema_tool.name
          let executorExists :=
            (tools.find? (fun t => t.name = schema_name ++ "QueryExecutor")).isSome
          match env.schema_run_failure with
          | some e =>
            { step_type := .natural_language_to_sql, data := [],
              input := [("query", Value.str query)], error := some e,
              terminal := true }
          | none =>
            let requirementStr :=
              match requirement with
              | .str s => s
              | _ => ""
            genLoop env requirementStr executorExists query 3 0 "" ""

/-- The SQL Generator as an orchestrator step, with a fresh oracle per
invocation. -/
def nlStep (envs : Nat → GenEnv) (query : String)
    (tools : List SchemaTool) : PipelineStep :=
  { get_type := .natural_language_to_sql,
    run := fun d n => .ok (nlRun (envs n) query tools d) }

/-! ## Auxiliary definitions used by theorems -/

/-- A step whose every invocation returns `.ok`: no exception escapes
into the orchestrator's `except` handler. -/
def noRaise (s : PipelineStep) : Prop :=
  ∀ d n, ∃ o, s.run d n = .ok o

/-- The latest trace output whose data carries a truthy `reply`. -/
def pickLatest (l : List PipelineStepOutput) : Option PipelineStepOutput :=
  l.reverse.find? (fun o => hasReply o.data)

/-- Row count of a `sql_data` value (0 for non-row values). -/
def valRowsLength : Value → Nat
  | .rows rs => rs.length
  | _ => 0

/-! ## Concrete inputs for counterexamples and witnesses -/

/-- A step output whose error is a `RetryablePipelineStepException` with
the default retry budget. -/
def exRetryOut : PipelineStepOutput :=
  { step_type := .question_classification, data := [], input := [],
    error := some (RetryablePipelineStepException "boom") }

/-- A step that fails retryably on every invocation. -/
def exRetryStep : PipelineStep :=
  { get_type := .question_classification, run := fun _ _ => .ok exRetryOut }

/-- A step output carrying a plain (non-retryable) error. -/
def exFatalOut : PipelineStepOutput :=
  { step_type := .question_classification, data := [], input := [],
    error := some (StepError.fatal "hard failure") }

/-- A step that fails fatally on every invocation. -/
def exFatalStep : PipelineStep :=
  { get_type := .question_classification, run := fun _ _ => .ok exFatalOut }

/-- Requirement Gatherer oracle: the agent answers, the YAML parses to a
clear, not-yet-answered requirement, but no schema tool name is given,
so no connection id is resolvable. -/
def exGatherEnv : GathererEnv :=
  { agent_failure := none, raw_data := "raw",
    parsed := some
      { reply := "ok", schema_tool_name := none, requirement := some "r",
        is_requirement_clear := true,
        is_already_answered_without_further_queries := false } }

/-- A schema-getter tool and the matching query-executor tool. -/
def exTools : List SchemaTool :=
  [{ name := "aSchemaGetter", run_no_llm := some { connection_id := "c" } },
   { name := "aQueryExecutor", run_no_llm := none }]

/-- Summarizer oracle reaching the success path. -/
def exSummEnv : SummarizerEnv :=
  { client_failure := none, schema_run_failure := none,
    exec_query := .ok "csv", llm_failure := none, raw_data := "raw",
    parsed := some { reply := "rep", data_summary := "sum" } }

/-- Shared state holding everything the Summarizer needs, with sample
rows already attached by the generator step. -/
def exSummData : Dict :=
  [("schema_tool_name", Value.str "aSchemaGetter"),
   ("requirement", Value.str "r"), ("connection_id", Value.str "c"),
   ("sql", Value.str "select 1"), ("sql_data", Value.rows [["1"]])]

/-- A generation attempt whose YAML parses but whose `sql` is empty. -/
def exGenEmptySql : GenAttemptEnv :=
  { raw_data := "raw", parsed := .ok { reply := "r", sql := some "" },
    exec_result := "", literal_eval := none }

/-- A generation attempt whose SQL the executor reports as erroring. -/
def exGenErrAttempt (i : Nat) : GenAttemptEnv :=
  { raw_data := "raw",
    parsed := .ok { reply := "r", sql := some ("select " ++ toString i) },
    exec_result := "err" ++ toString i
      ++ " Background on this error at: https://sqlalche.me/x",
    literal_eval := none }

/-- SQL Generator oracle whose every attempt hits an execution error. -/
def exGenEnvFail : GenEnv :=
  { client_failure := none, schema_run_failure := none,
    attempts := exGenErrAttempt }

/-- SQL Generator oracle: attempts 0 and 1 hit execution errors, attempt
2 succeeds with 15 result rows. -/
def exGenEnvMix : GenEnv :=
  { client_failure := none, schema_run_failure := none,
    attempts := fun i =>
      if i < 2 then exGenErrAttempt i
      else
        { raw_data := "raw", parsed := .ok { reply := "r", sql := some "select ok" },
          exec_result := "rowstext",
          literal_eval := some (List.replicate 15 ["1"]) } }

/-- Shared state for the SQL Generator examples. -/
def exNlData : Dict :=
  [("schema_tool_name", Value.str "aSchemaGetter"),
   ("requirement", Value.str "r")]

/-- Step A of the merge scenario: writes `x = 1` and `y = 7`. -/
def exStepA : PipelineStep :=
  { get_type := .question_classification,
    run := fun _ _ => .ok
      { step_type := .question_classification,
        data := [("x", Value.int 1), ("y", Value.int 7)], input := [],
        terminal := false } }

/-- Step B of the merge scenario: writes `x = 2` and `z = 9`. -/
def exStepB : PipelineStep :=
  { get_type := .requirements_extraction,
    run := fun _ _ => .ok
      { step_type := .requirements_extraction,
        data := [("x", Value.int 2), ("z", Value.int 9)], input := [],
        terminal := false } }

/-- A terminal step whose data carries both a `reply` and a
`data_summary`. -/
def exReplyStep : PipelineStep :=
  { get_type := .data_summarization,
    run := fun _ _ => .ok
      { step_type := .data_summarization,
        data := [("reply", Value.str "rep"),
                 ("data_summary", Value.str "sum")],
        input := [], terminal := true } }

/-- The Summarizer as an orchestrator step at a fixed oracle, used as
the pipeline tail in the C5 scenario. -/
def exSummStep : PipelineStep :=
  { get_type := .data_summarization,
    run := fun d _ => .ok (summarizerRun exSummEnv "q" exTools d) }

/-! ## Theorems -/

theorem runSteps_is_complete (l : List PipelineStep) :
    ∀ (data : Dict) (reply : Value) (results : List PipelineStepOutput)
      (stats : List PipelineStatistics),
      (runSteps l data reply results stats).is_complete = true := by
  induction l with
  | nil => intro data reply results stats; rfl
  | cons step rest ih =>
    intro data reply results stats
    simp only [runSteps]
    cases h : runStepWithRetries step data with
    | error p => obtain ⟨e, attempts⟩ := p; rfl
    | ok p =>
      obtain ⟨result, attempts⟩ := p
      by_cases he : result.error.isSome <;> by_cases ht : result.terminal <;>
        simp [he, ht, ih]

/-- C10: every `PipelineResult` returned by `QueryPipeline.run` has
`is_complete = true` — on normal completion, on a halt at a step error,
and in the catch-all exception handler alike — so the completion flag
never distinguishes a failed run from a successful one. -/
theorem C10_is_complete_always_true (l : List PipelineStep) (data : Dict) :
    (QueryPipeline.run l data).is_complete = true :=
  runSteps_is_complete l data (Value.str "") [] []

/-- C3 counterexample: a Summarizer invocation that reaches the success
path (a summary is parsed) returns a `StepOutput` with
`terminal = false`, refuting "every Summarizer StepOutput has
`terminal = true`". -/
theorem C3_summarizer_terminal_counterexample :
    (summarizerRun exSummEnv "q" exTools exSummData).terminal = false := by
  rfl

/-- C3 amended: a Summarizer `StepOutput` has `terminal = true` exactly
when it carries an error; the success path, where a summary is parsed,
returns `terminal = false`. -/
theorem C3_summarizer_terminal_iff_error (env : SummarizerEnv)
    (query : String) (tools : List SchemaTool) (data : Dict) :
    (summarizerRun env query tools data).terminal
      = (summarizerRun env query tools data).error.isSome := by
  unfold summarizerRun
  repeat' (first | rfl | split | dsimp only)

/-- C8: when a generation attempt parses a structurally valid model
response whose `sql` field is empty or absent, `generate_sql` returns a
`StepOutput` whose error is a `RetryablePipelineStepException`, not a
fatal error; and the result is independent of the executor oracle, so
only a non-empty SQL string proceeds to execution. -/
theorem C8_empty_sql_retryable (env : GenAttemptEnv) (requirement : String)
    (executorExists : Bool) (o : GenOutput)
    (hp : env.parsed = .ok o) (hs : sqlFalsy o.sql = true) :
    (∃ out, generate_sql env requirement executorExists = .out out ∧
        out.error = some (RetryablePipelineStepException
          "Failed to generate sql query") ∧
        retryableOpt out.error = true) ∧
    (∀ (res : String) (lit : Option (List (List String))),
      generate_sql { env with exec_result := res, literal_eval := lit }
          requirement executorExists
        = generate_sql env requirement executorExists) := by
  constructor
  · have h : generate_sql env requirement executorExists
        = .out { step_type := .natural_language_to_sql,
                 raw_data := env.raw_data, data := o.toDict,
                 input := [("requirement", Value.str requirement)],
                 error := some (RetryablePipelineStepException
                   "Failed to generate sql query"),
                 terminal := true } := by
      unfold generate_sql
      rw [hp]
      simp [hs]
    exact ⟨_, h, rfl, rfl⟩
  · intro res lit
    unfold generate_sql
    rw [hp]
    simp [hs]

/-- C8 witness: the theorem applied to a concrete attempt with empty
SQL. -/
theorem C8_empty_sql_retryable_witness :
    ∃ out, generate_sql exGenEmptySql "req" true = .out out ∧
      out.error = some (RetryablePipelineStepException
        "Failed to generate sql query") ∧
      retryableOpt out.error = true :=
  (C8_empty_sql_retryable exGenEmptySql "req" true
    { reply := "r", sql := some "" } rfl rfl).1

/-- C4: whenever a step returns a `StepOutput` whose error is non-null
and not a `RetryablePipelineStepException`, the orchestrator executes no
further steps (the remaining pipeline is irrelevant) and the returned
`PipelineResult.error` equals that step's error, with exactly that
step's output appended to the trace. -/
theorem C4_nonretryable_error_halts (step : PipelineStep)
    (rest : List PipelineStep) (data : Dict) (reply : Value)
    (results : List PipelineStepOutput) (stats : List PipelineStatistics)
    (res : PipelineStepOutput) (e : StepError)
    (h0 : step.run data 0 = .ok res) (he : res.error = some e)
    (hnr : retryableOpt res.error = false) :
    (runSteps (step :: rest) data reply results stats).error = some e ∧
    (runSteps (step :: rest) data reply results stats).steps
      = results ++ [res] ∧
    (∀ rest2, runSteps (step :: rest2) data reply results stats
      = runSteps (step :: rest) data reply results stats) := by
  have hrw : runStepWithRetries step data = .ok (res, [res]) := by
    unfold runStepWithRetries
    rw [h0]
    dsimp only
    rw [he]
    rw [he] at hnr
    cases e with
    | retryable m rc => simp [retryableOpt] at hnr
    | fatal m => rfl
  refine ⟨?_, ?_, ?_⟩
  · simp only [runSteps]
    rw [hrw]
    simp [he]
  · simp only [runSteps]
    rw [hrw]
    simp [he]
  · intro rest2
    simp only [runSteps]
    rw [hrw]
    simp [he]

/-- C4 witness: the theorem applied to a concrete fatally-failing
step. -/
theorem C4_nonretryable_error_halts_witness :
    (runSteps [exFatalStep] [] (Value.str "") [] []).error
      = some (StepError.fatal "hard failure") ∧
    (runSteps [exFatalStep] [] (Value.str "") [] []).steps = [] ++ [exFatalOut] ∧
    (∀ rest2, runSteps (exFatalStep :: rest2) [] (Value.str "") [] []
      = runSteps [exFatalStep] [] (Value.str "") [] []) :=
  C4_nonretryable_error_halts exFatalStep [] [] (Value.str "") [] []
    exFatalOut (StepError.fatal "hard failure") rfl rfl rfl

theorem retryLoop_attempts_le (step : PipelineStep) (data : Dict) :
    ∀ (fuel n : Nat) (result : PipelineStepOutput),
      (match retryLoop step data result n fuel with
       | .ok (_, l) => l.length
       | .error (_, l) => l.length + 1) ≤ fuel := by
  intro fuel
  induction fuel with
  | zero => intro n result; simp [retryLoop]
  | succ fuel ih =>
    intro n result
    rw [retryLoop]
    cases hs : step.run data n with
    | raise e => simp
    | ok r =>
      by_cases hr : retryableOpt r.error
      · simp only [hr, if_true]
        have := ih (n + 1) r
        cases hl : retryLoop step data r (n + 1) fuel with
        | error p =>
          obtain ⟨e, l⟩ := p
          rw [hl] at this
          simpa using Nat.succ_le_succ this
        | ok p =>
          obtain ⟨rf, l⟩ := p
          rw [hl] at this
          simpa using Nat.succ_le_succ this
      · simp [hr]

theorem runSteps_steps_length (l : List PipelineStep) :
    ∀ (data : Dict) (reply : Value) (results : List PipelineStepOutput)
      (stats : List PipelineStatistics),
      (runSteps l data reply results stats).steps.length
        ≤ results.length + l.length := by
  induction l with
  | nil => intro data reply results stats; simp [runSteps]
  | cons step rest ih =>
    intro data reply results stats
    simp only [runSteps]
    cases h : runStepWithRetries step data with
    | error p =>
      obtain ⟨e, attempts⟩ := p
      simp
    | ok p =>
      obtain ⟨result, attempts⟩ := p
      by_cases he : result.error.isSome
      · simp [he]
      · by_cases ht : result.terminal
        · simp [he, ht]
        · simp only [he, ht, Bool.false_eq_true, if_false]
          refine le_trans (ih _ _ _ _) ?_
          simp only [List.length_append, List.length_cons, List.length_nil]
          omega

/-- C1 counterexample: a step failing with the default retryable error
is invoked 4 times (1 + retry budget 3), yet the steps list of the
returned `PipelineResult` holds a single `StepOutput` for it — the
trace length does not reflect every retried attempt. -/
theorem C1_trace_per_attempt_counterexample :
    (QueryPipeline.run [exRetryStep] []).steps.length = 1 ∧
    attemptsMade (runStepWithRetries exRetryStep []) = 4 ∧
    (1 : Nat) ≠ 4 := by
  refine ⟨rfl, rfl, by decide⟩

/-- C1 amended: for a step whose first run result carries a
`RetryablePipelineStepException`, the orchestrator invokes the step at
most `retry_count + 1` times in total (default `retry_count = 3`); the
steps list of the returned `PipelineResult`, however, holds exactly one
`StepOutput` per executed step — the final attempt's output — so its
length is bounded by the number of pipeline steps and does not reflect
individual retry attempts. -/
theorem C1_retry_bound_and_single_trace_entry :
    (∀ (step : PipelineStep) (data : Dict) (out : PipelineStepOutput)
       (m : String) (rc : Nat),
       step.run data 0 = .ok out →
       out.error = some (StepError.retryable m rc) →
       attemptsMade (runStepWithRetries step data) ≤ rc + 1) ∧
    (∀ (l : List PipelineStep) (data : Dict),
       (QueryPipeline.run l data).steps.length ≤ l.length) := by
  constructor
  · intro step data out m rc h0 he
    unfold runStepWithRetries
    rw [h0]
    dsimp only
    rw [he]
    dsimp only
    have hb := retryLoop_attempts_le step data rc 1 out
    cases hl : retryLoop step data out 1 rc with
    | error p =>
      obtain ⟨e2, lst⟩ := p
      rw [hl] at hb
      simp only [attemptsMade, List.length_cons] at hb ⊢
      exact Nat.succ_le_succ hb
    | ok p =>
      obtain ⟨rf, lst⟩ := p
      rw [hl] at hb
      simp only [attemptsMade, List.length_cons] at hb ⊢
      exact Nat.succ_le_succ hb
  · intro l data
    simpa using runSteps_steps_length l data (Value.str "") [] []

/-- C1 witness: the retry bound and the trace bound at the concrete
always-retryable step. -/
theorem C1_retry_bound_witness :
    attemptsMade (runStepWithRetries exRetryStep []) ≤ 3 + 1 ∧
    (QueryPipeline.run [exRetryStep] []).steps.length ≤ 1 :=
  ⟨C1_retry_bound_and_single_trace_entry.1 exRetryStep [] exRetryOut
      "boom" 3 rfl rfl,
   C1_retry_bound_and_single_trace_entry.2 [exRetryStep] []⟩

theorem retryLoop_all_retryable (step : PipelineStep) (data : Dict)
    (g : Nat → PipelineStepOutput)
    (hs : ∀ n, step.run data n = .ok (g n))
    (hr : ∀ n, retryableOpt (g n).error = true) :
    ∀ (fuel n : Nat) (r : PipelineStepOutput),
      ∃ l, retryLoop step data r n fuel
          = .ok ((if 0 < fuel then g (n + fuel - 1) else r), l) ∧
        l.length = fuel := by
  intro fuel
  induction fuel with
  | zero =>
    intro n r
    exact ⟨[], by simp [retryLoop], rfl⟩
  | succ fuel ih =>
    intro n r
    obtain ⟨l, hl, hlen⟩ := ih (n + 1) (g n)
    refine ⟨g n :: l, ?_, by simp [hlen]⟩
    have harg : (if 0 < fuel then g (n + 1 + fuel - 1) else g n)
        = g (n + (fuel + 1) - 1) := by
      by_cases hf : 0 < fuel
      · rw [if_pos hf]; congr 1; omega
      · rw [if_neg hf]; congr 1; omega
    rw [retryLoop, hs n]
    dsimp only
    rw [hr n]
    rw [hl]
    dsimp only
    rw [harg]
    simp

/-- C2 counterexample: when the parsed output is clear and not already
answered but no connection id is resolvable, the Requirement Gatherer
returns a `RetryablePipelineStepException` (not a fatal error), and the
orchestrator invokes the step 4 times instead of halting immediately. -/
theorem C2_connection_id_retryable_counterexample :
    (gathererRun exGatherEnv "q" []).error
      = some (StepError.retryable
          "AI could not decide on the database, so no connection id found" 3) ∧
    attemptsMade
      (runStepWithRetries (gathererStep (fun _ => exGatherEnv) "q" []) [])
      = 4 :=
  ⟨rfl, rfl⟩

/-- C2 amended: when the parsed output has `is_requirement_clear` true
and `is_already_answered_without_further_queries` false but resolving
`schema_tool_name` yields no connection id, the step fails with a
`RetryablePipelineStepException` (retry budget 3); the orchestrator
therefore retries the step up to 3 more times and halts with that error,
with a single trace entry for the step, only after the retry budget is
exhausted. -/
theorem C2_no_connection_id_retryable :
    (∀ (env : GathererEnv) (query : String) (tools : List SchemaTool)
       (output : GatherOutput),
       env.agent_failure = none →
       env.parsed = some output →
       output.is_requirement_clear = true →
       output.is_already_answered_without_further_queries = false →
       (get_connection_id_from_tools output.schema_tool_name
           (tools.filter (fun t => pyIn "SchemaGetter" t.name)) = none ∨
        get_connection_id_from_tools output.schema_tool_name
           (tools.filter (fun t => pyIn "SchemaGetter" t.name)) = some "") →
       (gathererRun env query tools).error
         = some (StepError.retryable
             "AI could not decide on the database, so no connection id found"
             3)) ∧
    (∀ (envs : Nat → GathererEnv) (query : String) (tools : List SchemaTool)
       (data : Dict) (msg : String),
       (∀ n, (gathererRun (envs n) query tools).error
          = some (StepError.retryable msg 3)) →
       attemptsMade
           (runStepWithRetries (gathererStep envs query tools) data) = 4 ∧
       (∀ (reply : Value) (results : List PipelineStepOutput)
          (stats : List PipelineStatistics) (rest : List PipelineStep),
          (runSteps (gathererStep envs query tools :: rest) data reply
              results stats).error = some (StepError.retryable msg 3) ∧
          (runSteps (gathererStep envs query tools :: rest) data reply
              results stats).steps
            = results ++ [gathererRun (envs 3) query tools])) := by
  constructor
  · intro env query tools output ha hp hc hasw hcid
    rcases hcid with h | h <;>
      simp [gathererRun, ha, hp, hc, hasw, h, RetryablePipelineStepException]
  · intro envs query tools data msg h
    have hs : ∀ n, (gathererStep envs query tools).run data n
        = .ok (gathererRun (envs n) query tools) := fun n => rfl
    have hr : ∀ n,
        retryableOpt (gathererRun (envs n) query tools).error = true := by
      intro n; rw [h n]; rfl
    obtain ⟨l, hl, hlen⟩ := retryLoop_all_retryable
      (gathererStep envs query tools) data
      (fun n => gathererRun (envs n) query tools) hs hr 3 1
      (gathererRun (envs 0) query tools)
    norm_num at hl
    have hrw : runStepWithRetries (gathererStep envs query tools) data
        = .ok (gathererRun (envs 3) query tools,
            gathererRun (envs 0) query tools :: l) := by
      unfold runStepWithRetries
      rw [hs 0]
      dsimp only
      rw [h 0]
      dsimp only
      rw [hl]
    constructor
    · rw [hrw]
      simp [attemptsMade, hlen]
    · intro reply results stats rest
      simp only [runSteps]
      rw [hrw]
      simp [h 3]

/-- C2 witness: the theorem applied to a concrete environment in which
the requirement is clear, not already answered, and no schema tool name
resolves to a connection id. -/
theorem C2_no_connection_id_witness :
    (gathererRun exGatherEnv "query" []).error
      = some (StepError.retryable
          "AI could not decide on the database, so no connection id found"
          3) ∧
    attemptsMade
      (runStepWithRetries (gathererStep (fun _ => exGatherEnv) "query" []) [])
      = 4 :=
  ⟨C2_no_connection_id_retryable.1 exGatherEnv "query" []
      { reply := "ok", schema_tool_name := none, requirement := some "r",
        is_requirement_clear := true,
        is_already_answered_without_further_queries := false }
      rfl rfl rfl rfl (Or.inl rfl),
   (C2_no_connection_id_retryable.2 (fun _ => exGatherEnv) "query" [] []
      "AI could not decide on the database, so no connection id found"
      (fun _ => rfl)).1⟩

theorem runSteps_cons_success (step : PipelineStep) (rest : List PipelineStep)
    (data : Dict) (reply : Value) (results : List PipelineStepOutput)
    (stats : List PipelineStatistics) (out : PipelineStepOutput)
    (h0 : step.run data 0 = .ok out) (he : out.error = none)
    (ht : out.terminal = false) :
    runSteps (step :: rest) data reply results stats
      = runSteps rest (data ++ out.data)
          (if hasReply out.data then selReply out.data else reply)
          (results ++ [out]) (stats ++ statsOf [out]) := by
  have hrw : runStepWithRetries step data = .ok (out, [out]) := by
    unfold runStepWithRetries
    rw [h0]
    dsimp only
    rw [he]
  simp only [runSteps]
  rw [hrw]
  simp [he, ht]

/-- C6: shared-state merge in the orchestrator is last-write-wins per
key: when an earlier step A succeeds setting `x = 1` and a later step B
succeeds setting `x = 2`, the remaining pipeline (any step C among it)
is run on the merged state, which maps `x` to `2`; keys written by only
one of the steps keep that step's value. -/
theorem C6_last_write_wins_merge (A B : PipelineStep)
    (rest : List PipelineStep) (data0 : Dict) (reply : Value)
    (results : List PipelineStepOutput) (stats : List PipelineStatistics)
    (outA outB : PipelineStepOutput)
    (hA : A.run data0 0 = .ok outA) (hAe : outA.error = none)
    (hAt : outA.terminal = false)
    (hB : B.run (data0 ++ outA.data) 0 = .ok outB) (hBe : outB.error = none)
    (hBt : outB.terminal = false)
    (hx1 : dget outA.data "x" = Value.int 1)
    (hx2 : dget outB.data "x" = Value.int 2) :
    (∃ reply2 results2 stats2,
      runSteps (A :: B :: rest) data0 reply results stats
        = runSteps rest ((data0 ++ outA.data) ++ outB.data) reply2 results2
            stats2) ∧
    dget ((data0 ++ outA.data) ++ outB.data) "x" = Value.int 2 ∧
    (∀ k, containsKey outB.data k = false →
      dget ((data0 ++ outA.data) ++ outB.data) k
        = dget (data0 ++ outA.data) k) := by
  refine ⟨?_, ?_, ?_⟩
  · rw [runSteps_cons_success A (B :: rest) data0 reply results stats outA
      hA hAe hAt]
    rw [runSteps_cons_success B rest (data0 ++ outA.data) _ _ _ outB
      hB hBe hBt]
    exact ⟨_, _, _, rfl⟩
  · have hc : containsKey outB.data "x" = true := by
      refine containsKey_of_dget_ne_vnone _ _ ?_
      rw [hx2]
      simp
    rw [dget_append_of_contains _ _ _ hc, hx2]
  · intro k hk
    exact dget_append_of_not_contains _ _ _ hk

/-- C6 witness: the merge conclusion at the concrete steps writing
`x = 1, y = 7` and `x = 2, z = 9`. -/
theorem C6_last_write_wins_merge_witness :
    dget (([] ++ [("x", Value.int 1), ("y", Value.int 7)])
        ++ [("x", Value.int 2), ("z", Value.int 9)]) "x" = Value.int 2 :=
  (C6_last_write_wins_merge exStepA exStepB [] [] (Value.str "") [] []
    _ _ rfl rfl rfl rfl rfl rfl rfl rfl).2.1

theorem retryLoop_no_raise (step : PipelineStep) (data : Dict)
    (h : ∀ d n, ∃ o, step.run d n = .ok o) :
    ∀ (fuel n : Nat) (r : PipelineStepOutput),
      ∃ p, retryLoop step data r n fuel = .ok p := by
  intro fuel
  induction fuel with
  | zero => intro n r; exact ⟨(r, []), by rw [retryLoop]⟩
  | succ fuel ih =>
    intro n r
    obtain ⟨o, ho⟩ := h data n
    by_cases hr : retryableOpt o.error
    · obtain ⟨⟨rf, l⟩, hp⟩ := ih (n + 1) o
      refine ⟨(rf, o :: l), ?_⟩
      rw [retryLoop, ho]
      dsimp only
      rw [if_pos hr, hp]
    · refine ⟨(o, [o]), ?_⟩
      rw [retryLoop, ho]
      dsimp only
      rw [if_neg hr]

theorem runStepWithRetries_no_raise (step : PipelineStep) (data : Dict)
    (h : ∀ d n, ∃ o, step.run d n = .ok o) :
    ∃ p, runStepWithRetries step data = .ok p := by
  obtain ⟨o, ho⟩ := h data 0
  unfold runStepWithRetries
  rw [ho]
  dsimp only
  cases he : o.error with
  | none => exact ⟨(o, [o]), rfl⟩
  | some e =>
    cases e with
    | retryable m rc =>
      obtain ⟨⟨rf, l⟩, hp⟩ := retryLoop_no_raise step data h rc 1 o
      exact ⟨(rf, o :: l), by dsimp only; rw [hp]⟩
    | fatal m => exact ⟨(o, [o]), rfl⟩

theorem foldl_reply_pick :
    ∀ (l : List PipelineStepOutput) (r : Value),
      l.foldl (fun acc o => if hasReply o.data then selReply o.data else acc) r
        = match l.reverse.find? (fun o => hasReply o.data) with
          | some o => selReply o.data
          | none => r := by
  intro l
  induction l with
  | nil => intro r; rfl
  | cons a l ih =>
    intro r
    rw [List.foldl_cons, ih, List.reverse_cons, List.find?_append]
    cases hf : l.reverse.find? (fun o => hasReply o.data) with
    | some o => simp
    | none =>
      by_cases ha : hasReply a.data
      · simp [List.find?_cons, ha]
      · simp [List.find?_cons, ha]

theorem runSteps_reply_foldl :
    ∀ (l : List PipelineStep) (data : Dict) (reply : Value)
      (results : List PipelineStepOutput) (stats : List PipelineStatistics),
      (∀ s ∈ l, noRaise s) →
      ∃ new, (runSteps l data reply results stats).steps = results ++ new ∧
        (runSteps l data reply results stats).reply
          = new.foldl
              (fun acc o => if hasReply o.data then selReply o.data else acc)
              reply := by
  intro l
  induction l with
  | nil =>
    intro data reply results stats h
    exact ⟨[], by simp [runSteps], by simp [runSteps]⟩
  | cons step rest ih =>
    intro data reply results stats h
    have hstep : noRaise step := h step (List.mem_cons_self _ _)
    have hrest : ∀ s ∈ rest, noRaise s :=
      fun s hs => h s (List.mem_cons_of_mem _ hs)
    obtain ⟨⟨result, attempts⟩, hrw⟩ :=
      runStepWithRetries_no_raise step data hstep
    simp only [runSteps]
    rw [hrw]
    by_cases he : result.error.isSome
    · refine ⟨[result], ?_, ?_⟩ <;> simp [he]
    · by_cases ht : result.terminal
      · refine ⟨[result], ?_, ?_⟩ <;> simp [he, ht]
      · obtain ⟨new, h1, h2⟩ := ih (data ++ result.data)
          (if hasReply result.data then selReply result.data else reply)
          (results ++ [result]) (stats ++ statsOf attempts) hrest
        refine ⟨result :: new, ?_, ?_⟩
        · simp only [he, ht, Bool.false_eq_true, if_false]
          rw [h1]
          simp
        · simp only [he, ht, Bool.false_eq_true, if_false]
          rw [h2]
          simp

/-- C7: when no exception escapes a step, the reply of the returned
`PipelineResult` comes from the latest trace output whose data carries a
truthy `reply`, taking that output's `data_summary` value when truthy
(present and non-empty) and its `reply` value otherwise; with no such
output the reply stays the initial empty string. -/
theorem C7_reply_selection (l : List PipelineStep) (data : Dict)
    (h : ∀ s ∈ l, noRaise s) :
    (QueryPipeline.run l data).reply
      = match pickLatest (QueryPipeline.run l data).steps with
        | some o => pyOr (dget o.data "data_summary") (dget o.data "reply")
        | none => Value.str "" := by
  obtain ⟨new, h1, h2⟩ := runSteps_reply_foldl l data (Value.str "") [] [] h
  simp only [List.nil_append] at h1
  unfold QueryPipeline.run
  rw [h2, h1, foldl_reply_pick]
  unfold pickLatest
  cases hf : new.reverse.find? (fun o => hasReply o.data) <;> rfl

/-- C7 witness: a pipeline whose single step outputs both a truthy
`reply` and a truthy `data_summary`; the final reply is the
`data_summary` value. -/
theorem C7_reply_selection_witness :
    (QueryPipeline.run [exReplyStep] []).reply = Value.str "sum" := by
  have h := C7_reply_selection [exReplyStep] [] (by
    intro s hs d n
    simp only [List.mem_singleton] at hs
    subst hs
    exact ⟨_, rfl⟩)
  rw [h]
  rfl

theorem generate_sql_exec_error (env : GenAttemptEnv) (req : String)
    (o : GenOutput) (s : String)
    (hp : env.parsed = .ok o) (hsql : o.sql = some s) (hne : s ≠ "")
    (hd : detect_sql_error env.exec_result = true) :
    generate_sql env req true = .sqlError s env.exec_result := by
  have hf : sqlFalsy o.sql = false := by
    rw [hsql]; simp [sqlFalsy, hne]
  unfold generate_sql
  rw [hp]
  dsimp only
  rw [hf]
  simp [hd, hsql]

theorem generate_sql_success (env : GenAttemptEnv) (req : String)
    (o : GenOutput) (s : String)
    (hp : env.parsed = .ok o) (hsql : o.sql = some s) (hne : s ≠ "")
    (hd : detect_sql_error env.exec_result = false) :
    generate_sql env req true
      = .out { step_type := .natural_language_to_sql,
               data := o.toDict
                 ++ [("sql_data",
                       match env.literal_eval with
                       | some rows => Value.rows (rows.take 10)
                       | none => Value.vnone)],
               input := [("requirement", Value.str req)],
               raw_data := env.raw_data, terminal := false,
               statistics := some { step_type := .natural_language_to_sql } } := by
  have hf : sqlFalsy o.sql = false := by
    rw [hsql]; simp [sqlFalsy, hne]
  unfold generate_sql
  rw [hp]
  dsimp only
  rw [hf]
  simp [hd]

theorem nlRun_reaches_loop (env : GenEnv) (query : String)
    (tools : List SchemaTool) (data : Dict) (s : String) (st : SchemaTool)
    (hc : env.client_failure = none)
    (hsr : env.schema_run_failure = none)
    (hschema : dget data "schema_tool_name" = Value.str s)
    (hs0 : s ≠ "")
    (hfind : tools.find? (fun t => t.name = s) = some st)
    (hreq : (dget data "requirement").truthy = true)
    (hexec : (tools.find? (fun t =>
        t.name = splitFirst "SchemaGetter" st.name
          ++ "QueryExecutor")).isSome = true) :
    nlRun env query tools data
      = genLoop env
          (match dget data "requirement" with
           | .str r => r
           | _ => "") true query 3 0 "" "" := by
  have h1 : (!(dget data "schema_tool_name").truthy) = false := by
    rw [hschema]; simp [Value.truthy, hs0]
  have h2 : (!(dget data "requirement").truthy) = false := by
    rw [hreq]; rfl
  unfold nlRun
  rw [hc]
  dsimp only
  rw [h1]
  simp only [Bool.false_eq_true, if_false]
  rw [h2]
  simp only [Bool.false_eq_true, if_false]
  rw [hschema]
  dsimp only
  rw [hfind]
  dsimp only
  rw [hsr]
  dsimp only
  rw [hexec]

/-- C5: when every one of the SQL Generator's three internal generation
attempts produces SQL whose execution the query-executor tool reports as
an error, the step returns a non-retryable fatal `StepOutput` carrying
the last execution error text; the pipeline halts there, and no
Summarizer `StepOutput` appears in the trace (the trace holds exactly
one output, of the SQL-generation step type). -/
theorem C5_exhausted_attempts_fatal (env : GenEnv) (envs : Nat → GenEnv)
    (query : String) (tools : List SchemaTool) (data : Dict) (s : String)
    (st : SchemaTool) (rest : List PipelineStep)
    (hc : env.client_failure = none)
    (hsr : env.schema_run_failure = none)
    (hschema : dget data "schema_tool_name" = Value.str s)
    (hs0 : s ≠ "")
    (hfind : tools.find? (fun t => t.name = s) = some st)
    (hreq : (dget data "requirement").truthy = true)
    (hexec : (tools.find? (fun t =>
        t.name = splitFirst "SchemaGetter" st.name
          ++ "QueryExecutor")).isSome = true)
    (hatt : ∀ i, i < 3 → ∃ o si, (env.attempts i).parsed = .ok o ∧
        o.sql = some si ∧ si ≠ "" ∧
        detect_sql_error (env.attempts i).exec_result = true)
    (henvs : envs 0 = env) :
    (nlRun env query tools data).error
        = some (StepError.fatal ((env.attempts 2).exec_result)) ∧
    retryableOpt (nlRun env query tools data).error = false ∧
    (QueryPipeline.run (nlStep envs query tools :: rest) data).error
        = some (StepError.fatal ((env.attempts 2).exec_result)) ∧
    (QueryPipeline.run (nlStep envs query tools :: rest) data).steps.map
        (fun o => o.step_type) = [PipelineStepType.natural_language_to_sql] := by
  obtain ⟨o0, s0, hp0, hq0, hn0, hd0⟩ := hatt 0 (by omega)
  obtain ⟨o1, s1, hp1, hq1, hn1, hd1⟩ := hatt 1 (by omega)
  obtain ⟨o2, s2, hp2, hq2, hn2, hd2⟩ := hatt 2 (by omega)
  have hloop := nlRun_reaches_loop env query tools data s st hc hsr hschema
    hs0 hfind hreq hexec
  set rstr : String := (match dget data "requirement" with
    | .str r => r
    | _ => "") with hrstr
  have G0 := generate_sql_exec_error (env.attempts 0) rstr o0 s0 hp0 hq0 hn0 hd0
  have G1 := generate_sql_exec_error (env.attempts 1) rstr o1 s1 hp1 hq1 hn1 hd1
  have G2 := generate_sql_exec_error (env.attempts 2) rstr o2 s2 hp2 hq2 hn2 hd2
  have hout : nlRun env query tools data
      = { step_type := .natural_language_to_sql, data := [],
          input := [("requirement", Value.str rstr)],
          error := some (StepError.fatal ((env.attempts 2).exec_result)),
          terminal := true,
          statistics := some { step_type := .natural_language_to_sql } } := by
    rw [hloop]
    rw [genLoop, G0]
    dsimp only
    rw [genLoop, G1]
    dsimp only
    rw [genLoop, G2]
    dsimp only
    rw [genLoop]
  refine ⟨by rw [hout], by rw [hout]; rfl, ?_, ?_⟩
  · have hrw : runStepWithRetries (nlStep envs query tools) data
        = .ok (nlRun env query tools data, [nlRun env query tools data]) := by
      unfold runStepWithRetries
      have hcall : (nlStep envs query tools).run data 0
          = .ok (nlRun env query tools data) := by
        dsimp only [nlStep]
        rw [henvs]
      rw [hcall]
      dsimp only
      rw [hout]
    unfold QueryPipeline.run
    simp only [runSteps]
    rw [hrw]
    simp [hout]
  · have hrw : runStepWithRetries (nlStep envs query tools) data
        = .ok (nlRun env query tools data, [nlRun env query tools data]) := by
      unfold runStepWithRetries
      have hcall : (nlStep envs query tools).run data 0
          = .ok (nlRun env query tools data) := by
        dsimp only [nlStep]
        rw [henvs]
      rw [hcall]
      dsimp only
      rw [hout]
    unfold QueryPipeline.run
    simp only [runSteps]
    rw [hrw]
    simp [hout]

/-- C5 witness: the theorem applied to a concrete oracle whose three
attempts all hit execution errors, with the Summarizer as the next
pipeline step. -/
theorem C5_exhausted_attempts_fatal_witness :
    (nlRun exGenEnvFail "q" exTools exNlData).error
        = some (StepError.fatal ((exGenEnvFail.attempts 2).exec_result)) ∧
    (QueryPipeline.run [nlStep (fun _ => exGenEnvFail) "q" exTools,
        exSummStep] exNlData).steps.map (fun o => o.step_type)
      = [PipelineStepType.natural_language_to_sql] := by
  have h := C5_exhausted_attempts_fatal exGenEnvFail (fun _ => exGenEnvFail)
    "q" exTools exNlData "aSchemaGetter"
    { name := "aSchemaGetter", run_no_llm := some { connection_id := "c" } }
    [exSummStep] rfl rfl rfl (by decide) rfl rfl rfl
    (by
      intro i hi
      interval_cases i <;>
        exact ⟨_, _, rfl, rfl, by decide, by decide⟩)
    rfl
  exact ⟨h.1, h.2.2.2⟩

/-- C9: on a generation attempt whose execution succeeds, the SQL
Generator's output carries at most the first 10 executor result rows
under `sql_data`; when the first two attempts hit execution errors and
the third succeeds, all internal attempts fold into this single
`StepOutput` (the orchestrator records exactly one trace entry for the
step), whose `sql_data` comes from the successful attempt. -/
theorem C9_sql_data_ten_rows (env : GenEnv) (envs : Nat → GenEnv)
    (query : String) (tools : List SchemaTool) (data : Dict) (s : String)
    (st : SchemaTool)
    (hc : env.client_failure = none)
    (hsr : env.schema_run_failure = none)
    (hschema : dget data "schema_tool_name" = Value.str s)
    (hs0 : s ≠ "")
    (hfind : tools.find? (fun t => t.name = s) = some st)
    (hreq : (dget data "requirement").truthy = true)
    (hexec : (tools.find? (fun t =>
        t.name = splitFirst "SchemaGetter" st.name
          ++ "QueryExecutor")).isSome = true)
    (hatt : ∀ i, i < 2 → ∃ o si, (env.attempts i).parsed = .ok o ∧
        o.sql = some si ∧ si ≠ "" ∧
        detect_sql_error (env.attempts i).exec_result = true)
    (o2 : GenOutput) (s2 : String)
    (hp2 : (env.attempts 2).parsed = .ok o2) (hq2 : o2.sql = some s2)
    (hn2 : s2 ≠ "")
    (hd2 : detect_sql_error ((env.attempts 2).exec_result) = false)
    (henvs : envs 0 = env) :
    (nlRun env query tools data).error = none ∧
    dget (nlRun env query tools data).data "sql_data"
      = (match (env.attempts 2).literal_eval with
         | some rows => Value.rows (rows.take 10)
         | none => Value.vnone) ∧
    valRowsLength (dget (nlRun env query tools data).data "sql_data") ≤ 10 ∧
    runStepWithRetries (nlStep envs query tools) data
      = .ok (nlRun env query tools data, [nlRun env query tools data]) := by
  obtain ⟨o0, s0, hp0, hq0, hn0, hd0⟩ := hatt 0 (by omega)
  obtain ⟨o1, s1, hp1, hq1, hn1, hd1⟩ := hatt 1 (by omega)
  have hloop := nlRun_reaches_loop env query tools data s st hc hsr hschema
    hs0 hfind hreq hexec
  set rstr : String := (match dget data "requirement" with
    | .str r => r
    | _ => "") with hrstr
  have G0 := generate_sql_exec_error (env.attempts 0) rstr o0 s0 hp0 hq0 hn0 hd0
  have G1 := generate_sql_exec_error (env.attempts 1) rstr o1 s1 hp1 hq1 hn1 hd1
  have G2 := generate_sql_success (env.attempts 2) rstr o2 s2 hp2 hq2 hn2 hd2
  have hout : nlRun env query tools data
      = { step_type := .natural_language_to_sql,
          data := o2.toDict
            ++ [("sql_data",
                  match (env.attempts 2).literal_eval with
                  | some rows => Value.rows (rows.take 10)
                  | none => Value.vnone)],
          input := [("requirement", Value.str rstr)],
          raw_data := (env.attempts 2).raw_data, terminal := false,
          statistics := some { step_type := .natural_language_to_sql } } := by
    rw [hloop]
    rw [genLoop, G0]
    dsimp only
    rw [genLoop, G1]
    dsimp only
    rw [genLoop, G2]
  have hget : dget (nlRun env query tools data).data "sql_data"
      = (match (env.attempts 2).literal_eval with
         | some rows => Value.rows (rows.take 10)
         | none => Value.vnone) := by
    rw [hout]
    dsimp only
    rw [dget_append_of_contains _ _ _ (by rfl)]
    simp [dget]
  refine ⟨by rw [hout], hget, ?_, ?_⟩
  · rw [hget]
    cases hlit : (env.attempts 2).literal_eval with
    | some rows =>
      simp only [valRowsLength]
      exact List.length_take_le 10 rows
    | none => simp [valRowsLength]
  · unfold runStepWithRetries
    have hcall : (nlStep envs query tools).run data 0
        = .ok (nlRun env query tools data) := by
      dsimp only [nlStep]
      rw [henvs]
    rw [hcall]
    dsimp only
    rw [hout]

/-- C9 witness: the theorem applied to a concrete oracle whose third
attempt succeeds with 15 result rows; the embedded `sql_data` holds the
first 10. -/
theorem C9_sql_data_ten_rows_witness :
    (nlRun exGenEnvMix "q" exTools exNlData).error = none ∧
    valRowsLength
        (dget (nlRun exGenEnvMix "q" exTools exNlData).data "sql_data")
      ≤ 10 := by
  have h := C9_sql_data_ten_rows exGenEnvMix (fun _ => exGenEnvMix)
    "q" exTools exNlData "aSchemaGetter"
    { name := "aSchemaGetter", run_no_llm := some { connection_id := "c" } }
    rfl rfl rfl (by decide) rfl rfl rfl
    (by
      intro i hi
      interval_cases i <;>
        exact ⟨_, _, rfl, rfl, by decide, by decide⟩)
    { reply := "r", sql := some "select ok" } "select ok" rfl rfl
    (by decide) (by decide) rfl
  exact ⟨h.1, h.2.2.1⟩

end DataAnalyst
